import Mathlib

/-!
Verification of the yt-dlx launch harness (repository/python/logic.py and
repository/python/1-main.py) against its specification.

The Python code is shallowly embedded: filesystem existence is modelled by
the list of existing paths carried in an `Env`, process spawning by an
explicit `SpawnOutcome` describing what the single `subprocess.run` call
of an invocation did, and `sys.exit` by returning a `ProcResult` record
holding the parent's exit code together with the observable side effects
(whether a spawn was attempted, the command vector, the text written to
the parent's stdout/stderr, and the status report when one is printed).
-/

namespace YtDlx

/-- Outcome of the single `subprocess.run` call an invocation may perform:
the child ran to completion with a return code and captured output, or
spawning raised `FileNotFoundError`, `PermissionError`,
`subprocess.SubprocessError`, or some other exception. -/
inductive SpawnOutcome where
  | completed (returncode : Int) (childStdout : String) (childStderr : String)
  | fileNotFound
  | permissionDenied
  | subprocessError (msg : String)
  | otherError (msg : String)
deriving DecidableEq

/-- Ambient process state consulted by the Python code: the PyInstaller
frozen flag and extraction root (`sys.frozen`, `sys._MEIPASS`), the
directory containing the script (`os.path.dirname(os.path.abspath(__file__))`),
the current working directory (never actually consulted by the code, kept
so that spec sentences mentioning it can be stated), the platform test
`sys.platform == "win32"`, the set of paths for which `os.path.exists`
answers true, and `sys.executable`. -/
structure Env where
  frozen : Bool
  meipass : String
  scriptDir : String
  cwd : String
  isWin32 : Bool
  fsExisting : List String
  pyExecutable : String
deriving DecidableEq

/-- `os.sep` for the platform. -/
def Env.sep (env : Env) : String := if env.isWin32 then ("\\") else ("/")

/-- `os.path.exists`. -/
def pathExists (env : Env) (p : String) : Bool := env.fsExisting.contains p

/-- `os.path.join` of two components (components here are never absolute,
so joining is separator insertion). -/
def joinP (env : Env) (a b : String) : String := a ++ env.sep ++ b

/-- `relative_bundle_path.replace("/", os.sep)`: the pattern and both
separators are single characters, so the substring replacement is a
character map. -/
def toHostSep (env : Env) (s : String) : String :=
  String.mk (s.data.map (fun c => if c == '/' then (if env.isWin32 then '\\' else '/') else c))

/-- The final `if os.path.exists(file_path): return file_path else: return None`
of `find_bundled_file`. -/
def existingOrNone (env : Env) (p : String) : Option String :=
  if pathExists env p then some p else none

/-- `logic.py` / `find_bundled_file`: resolve a bundle-relative path against
`sys._MEIPASS` when frozen, else against the script directory, with a
development fallback three levels above the script directory. -/
def find_bundled_file (env : Env) (relative_bundle_path : String) : Option String :=
  let base_path := if env.frozen then env.meipass else env.scriptDir
  let rel := toHostSep env relative_bundle_path
  let file_path := joinP env base_path rel
  if !env.frozen && !(pathExists env file_path) then
    let alt_path :=
      joinP env (joinP env (joinP env (joinP env env.scriptDir ("..")) ("..")) ("..")) rel
    if pathExists env alt_path then existingOrNone env alt_path
    else none
  else existingOrNone env file_path

/-- The brand token matched by `re.sub(r"yt-dlp", ..., flags=re.IGNORECASE)`,
as a list of lowercase characters. -/
def brandPat : List Char := ['y', 't', '-', 'd', 'l', 'p']

/-- The literal replacement text `"yt-dlx"`. -/
def brandRepl : List Char := ['y', 't', '-', 'd', 'l', 'x']

/-- Case-insensitive prefix test: does `s` start with the (lowercase)
pattern `pat`, comparing characters through `Char.toLower`? This is how
`re.IGNORECASE` matches the all-ASCII literal pattern. -/
def ciMatches : List Char → List Char → Bool
  | [], _ => true
  | _ :: _, [] => false
  | p :: ps, c :: cs => (c.toLower == p) && ciMatches ps cs

/-- `re.sub(r"yt-dlp", "yt-dlx", s, flags=re.IGNORECASE)` on the character
list of `s`: leftmost, non-overlapping scan; at a match the fixed
replacement is emitted and the six matched characters are skipped. A
suffix shorter than six characters can never match, so the six-character
head pattern keeps the recursion structural without changing behaviour. -/
def substBrand : List Char → List Char
  | c0 :: c1 :: c2 :: c3 :: c4 :: c5 :: rest =>
    if ciMatches brandPat (c0 :: c1 :: c2 :: c3 :: c4 :: c5 :: rest) then
      brandRepl ++ substBrand rest
    else
      c0 :: substBrand (c1 :: c2 :: c3 :: c4 :: c5 :: rest)
  | c :: cs => c :: substBrand cs
  | [] => []

/-- The brand substitution lifted to `String`. -/
def rebrand (s : String) : String := String.mk (substBrand s.data)

/-- A value of the JSON document printed by the status report: Python
`json.dumps` renders a string as a JSON string and `None` as `null`. -/
inductive JsonVal where
  | jstr (s : String)
  | jnull
deriving DecidableEq

/-- The `paths_info` dictionary printed when neither flag is given. -/
structure StatusReport where
  tor_executable : JsonVal
  tor_data_directory : JsonVal
  ytprobe : JsonVal
  bundled_torrc_win : JsonVal
  bundled_torrc_linux : JsonVal
  running_python_executable : JsonVal
deriving DecidableEq

/-- What the parent process did before terminating: its exit code, whether
`subprocess.run` was reached, the command vector handed to it, the text
written to the parent's stdout and stderr, and the status report when the
no-flag branch printed one. -/
structure ProcResult where
  exitCode : Int
  spawnAttempted : Bool
  command : Option (List String)
  stdoutText : String
  stderrText : String
  report : Option StatusReport
deriving DecidableEq

/-- `logic.py` / `run_executable`: guard the missing-path precondition
(exit 1, no spawn), then run the child. For `ytprobe` the output is
captured, rebranded and relayed; otherwise the child inherits the parent's
streams. Spawn-time exceptions map to exit codes 127 / 126 / 1 / 1. -/
def run_executable (executable_name_without_ext : String) (executable_path : Option String)
    (args : List String) (spawn : SpawnOutcome) : ProcResult :=
  match executable_path with
  | none =>
    { exitCode := 1, spawnAttempted := false, command := none, stdoutText := "",
      stderrText := ("Error: " ++ executable_name_without_ext ++ " not found in bundle."),
      report := none }
  | some p =>
    let command := p :: args
    let is_ytprobe := executable_name_without_ext == ("ytprobe")
    match spawn with
    | SpawnOutcome.completed rc out err =>
      if is_ytprobe then
        { exitCode := rc, spawnAttempted := true, command := some command,
          stdoutText := rebrand out, stderrText := rebrand err, report := none }
      else
        { exitCode := rc, spawnAttempted := true, command := some command,
          stdoutText := out, stderrText := err, report := none }
    | SpawnOutcome.fileNotFound =>
      { exitCode := 127, spawnAttempted := true, command := some command, stdoutText := "",
        stderrText := ("Error: The executable \"" ++ p ++ "\" was not found. Make sure the file \""
          ++ p ++ "\" exists in the bundle."),
        report := none }
    | SpawnOutcome.permissionDenied =>
      { exitCode := 126, spawnAttempted := true, command := some command, stdoutText := "",
        stderrText := ("Error: Permission denied to execute \"" ++ p ++ "\"."),
        report := none }
    | SpawnOutcome.subprocessError msg =>
      { exitCode := 1, spawnAttempted := true, command := some command, stdoutText := "",
        stderrText := ("Error running command \"" ++ String.intercalate (" ") command
          ++ "\": " ++ msg),
        report := none }
    | SpawnOutcome.otherError msg =>
      { exitCode := 1, spawnAttempted := true, command := some command, stdoutText := "",
        stderrText := ("An unexpected error occurred while running \""
          ++ String.intercalate (" ") command ++ "\": " ++ msg),
        report := none }

/-- The platform-dependent Tor executable resolution at the top of `main`. -/
def tor_path (env : Env) : Option String :=
  if env.isWin32 then find_bundled_file env ("context/windows/TorBrowser/tor/tor.exe")
  else find_bundled_file env ("context/linux/TorBrowser/tor/tor")

/-- The platform-dependent Tor data-directory resolution at the top of `main`. -/
def tor_data_dir (env : Env) : Option String :=
  if env.isWin32 then find_bundled_file env ("context/windows/TorBrowser/data")
  else find_bundled_file env ("context/linux/TorBrowser/data")

/-- The platform-dependent ytprobe executable resolution at the top of `main`. -/
def ytprobe_path (env : Env) : Option String :=
  if env.isWin32 then find_bundled_file env ("context/windows/ytprobe.exe")
  else find_bundled_file env ("context/linux/ytprobe.bin")

/-- `tor_path if tor_path else "Not found in bundle"` as a JSON value. -/
def pathOrMarker : Option String → JsonVal
  | some p => JsonVal.jstr p
  | none => JsonVal.jstr ("Not found in bundle")

/-- A raw `Optional[str]` placed in the dictionary unguarded: `None`
becomes JSON `null`. -/
def optPathJson : Option String → JsonVal
  | some p => JsonVal.jstr p
  | none => JsonVal.jnull

/-- The `paths_info` dictionary built in the no-flag branch of `main`. -/
def statusReport (env : Env) : StatusReport :=
  { tor_executable := pathOrMarker (tor_path env),
    tor_data_directory := pathOrMarker (tor_data_dir env),
    ytprobe := pathOrMarker (ytprobe_path env),
    bundled_torrc_win :=
      if env.isWin32 then
        optPathJson (find_bundled_file env ("context/windows/TorBrowser/data/torrc"))
      else JsonVal.jstr ("N/A on this platform"),
    bundled_torrc_linux :=
      if !env.isWin32 then
        optPathJson (find_bundled_file env ("context/linux/TorBrowser/data/torrc"))
      else JsonVal.jstr ("N/A on this platform"),
    running_python_executable := JsonVal.jstr env.pyExecutable }

/-- The parsed command line: `argparse` with `nargs=argparse.REMAINDER`
stores `None` when a flag is absent and the (possibly empty) list of
trailing arguments when it is present. -/
structure ParsedArgs where
  tor : Option (List String)
  ytprobe : Option (List String)
deriving DecidableEq

/-- `logic.py` / `main`: the three-way dispatch on the parsed flags. -/
def main (env : Env) (args : ParsedArgs) (spawn : SpawnOutcome) : ProcResult :=
  match args.tor with
  | some torArgs =>
    match tor_path env with
    | none =>
      { exitCode := 1, spawnAttempted := false, command := none, stdoutText := "",
        stderrText := ("Error: Bundled Tor executable not found in expected location."),
        report := none }
    | some tp =>
      match tor_data_dir env with
      | none =>
        { exitCode := 1, spawnAttempted := false, command := none, stdoutText := "",
          stderrText := ("Error: Bundled Tor Data directory not found in expected location."),
          report := none }
      | some dd =>
        let bundled_torrc_full_path := joinP env dd ("torrc")
        let config_part :=
          if pathExists env bundled_torrc_full_path then
            [("--config-file"), bundled_torrc_full_path]
          else []
        let warn :=
          if pathExists env bundled_torrc_full_path then ""
          else ("Warning: Bundled torrc not found at expected location: "
            ++ bundled_torrc_full_path)
        let tor_subprocess_args := [("--DataDirectory"), dd] ++ config_part ++ torArgs
        let r := run_executable ("tor") (some tp) tor_subprocess_args spawn
        { r with stderrText := warn ++ r.stderrText }
  | none =>
    match args.ytprobe with
    | some probeArgs => run_executable ("ytprobe") (ytprobe_path env) probeArgs spawn
    | none =>
      { exitCode := 0, spawnAttempted := false, command := none, stdoutText := "",
        stderrText := "", report := some (statusReport env) }

/-- `1-main.py` / `find_venv_python`: locate the embedded interpreter at the
platform's fixed relative location. -/
def find_venv_python (env : Env) : Option String :=
  let base_path := if env.frozen then env.meipass else env.scriptDir
  let venv_python_path :=
    if env.isWin32 then
      joinP env (joinP env (joinP env (joinP env base_path ("context")) ("windows")) ("venv"))
        ("python.exe")
    else
      joinP env (joinP env (joinP env (joinP env (joinP env base_path ("context")) ("linux"))
        ("venv")) ("bin")) ("python")
  if pathExists env venv_python_path then some venv_python_path else none

/-- `1-main.py`: the path of the Dispatcher entry script `logic.py` next to
the shim. -/
def app_script_path (env : Env) : String :=
  joinP env (if env.frozen then env.meipass else env.scriptDir) ("logic.py")

/-- `1-main.py` / the `__main__` block of the Launch Shim: spawn the
embedded interpreter on `logic.py` with argv forwarded, propagate the
child's exit code, and map every spawn-time exception to exit 1. When the
interpreter or the entry script is missing, exit 1 without spawning. -/
def shimMain (env : Env) (argv : List String) (spawn : SpawnOutcome) : ProcResult :=
  match find_venv_python env with
  | some vp =>
    if pathExists env (app_script_path env) then
      let command := vp :: app_script_path env :: argv
      match spawn with
      | SpawnOutcome.completed rc out err =>
        { exitCode := rc, spawnAttempted := true, command := some command,
          stdoutText := out, stderrText := err, report := none }
      | SpawnOutcome.fileNotFound =>
        { exitCode := 1, spawnAttempted := true, command := some command, stdoutText := "",
          stderrText := ("Error: The bundled Python executable was not found at \"" ++ vp
            ++ "\" or the script \"" ++ app_script_path env ++ "\" was not found."),
          report := none }
      | SpawnOutcome.permissionDenied =>
        { exitCode := 1, spawnAttempted := true, command := some command, stdoutText := "",
          stderrText := ("Error: Permission denied to execute the bundled Python executable at \""
            ++ vp ++ "\"."),
          report := none }
      | SpawnOutcome.subprocessError msg =>
        { exitCode := 1, spawnAttempted := true, command := some command, stdoutText := "",
          stderrText := ("An unexpected error occurred while launching logic.py: " ++ msg),
          report := none }
      | SpawnOutcome.otherError msg =>
        { exitCode := 1, spawnAttempted := true, command := some command, stdoutText := "",
          stderrText := ("An unexpected error occurred while launching logic.py: " ++ msg),
          report := none }
    else
      { exitCode := 1, spawnAttempted := false, command := none, stdoutText := "",
        stderrText := ("Error: Application logic script not found in the bundled environment."),
        report := none }
  | none =>
    { exitCode := 1, spawnAttempted := false, command := none, stdoutText := "",
      stderrText := ("Error: Venv Python interpreter not found in the bundled environment."),
      report := none }

/-- The locator behaviour exactly as the specification sentence for
unbundled runs words it: check the relative path against the current
working directory first, then against a directory three levels up.
Written only to be compared with `find_bundled_file`, which consults the
script directory instead. -/
def locate_spec_cwd (env : Env) (relative_bundle_path : String) : Option String :=
  let rel := toHostSep env relative_bundle_path
  let p := joinP env env.cwd rel
  if pathExists env p then some p
  else
    let alt := joinP env (joinP env (joinP env (joinP env env.cwd ("..")) ("..")) ("..")) rel
    if pathExists env alt then some alt else none

/-- A frozen Linux bundle containing the Tor executable and data directory
but no `torrc` and no probe executable. -/
def envTor : Env :=
  { frozen := true, meipass := "B", scriptDir := "S", cwd := "W", isWin32 := false,
    fsExisting := ["B/context/linux/TorBrowser/tor/tor", "B/context/linux/TorBrowser/data"],
    pyExecutable := "py" }

/-- A frozen Linux bundle with an empty filesystem: every resource is
missing. -/
def envEmptyLinux : Env :=
  { frozen := true, meipass := "B", scriptDir := "S", cwd := "W", isWin32 := false,
    fsExisting := [], pyExecutable := "py" }

/-- A frozen Windows bundle with an empty filesystem. -/
def envWinEmpty : Env :=
  { frozen := true, meipass := "B", scriptDir := "S", cwd := "W", isWin32 := true,
    fsExisting := [], pyExecutable := "py" }

/-- A frozen Linux bundle containing only the Tor executable (the data
directory is missing). -/
def envTorOnly : Env :=
  { frozen := true, meipass := "B", scriptDir := "S", cwd := "W", isWin32 := false,
    fsExisting := ["B/context/linux/TorBrowser/tor/tor"], pyExecutable := "py" }

/-- A frozen Linux bundle containing only the probe executable. -/
def envProbe : Env :=
  { frozen := true, meipass := "B", scriptDir := "S", cwd := "W", isWin32 := false,
    fsExisting := ["B/context/linux/ytprobe.bin"], pyExecutable := "py" }

/-- An unbundled (development) run in which the requested file exists under
the current working directory `W` but neither under the script directory
`S` nor under the three-levels-up fallback. -/
def envDevCwd : Env :=
  { frozen := false, meipass := "M", scriptDir := "S", cwd := "W", isWin32 := false,
    fsExisting := ["W/data/x"], pyExecutable := "py" }

/-- A frozen Linux bundle containing the embedded interpreter and the
Dispatcher entry script, as the Launch Shim expects. -/
def envShim : Env :=
  { frozen := true, meipass := "B", scriptDir := "S", cwd := "W", isWin32 := false,
    fsExisting := ["B/context/linux/venv/bin/python", "B/logic.py"], pyExecutable := "py" }

example : find_bundled_file envTor ("context/linux/TorBrowser/tor/tor") =
    some ("B/context/linux/TorBrowser/tor/tor") := by decide

example : tor_path envTor = some ("B/context/linux/TorBrowser/tor/tor") := by decide

example : find_bundled_file envDevCwd ("data/x") = none := by decide

example : locate_spec_cwd envDevCwd ("data/x") = some ("W/data/x") := by decide

example : rebrand ("see YT-DLP and yt-dlp here") = ("see yt-dlx and yt-dlx here") := by decide

example : find_venv_python envShim = some ("B/context/linux/venv/bin/python") := by decide

/-- The Runner's mode test: the Tor invocation name is not the probe name. -/
theorem tor_not_ytprobe : ((("tor") : String) == ("ytprobe")) = false := by decide

/-- `existingOrNone` only ever returns paths that exist. -/
theorem existingOrNone_sound (env : Env) (q p : String)
    (h : existingOrNone env q = some p) : pathExists env p = true := by
  unfold existingOrNone at h
  cases hq : pathExists env q <;> rw [hq] at h
  · simp at h
  · simp at h
    subst h
    exact hq

/-- Claim C1: for every Runner invocation with a non-absent executable
path, executable-not-found at spawn exits 127, permission-denied exits
126, any other spawn-time fault exits 1, and when the child runs to
completion the parent exits with exactly the child's own exit code. -/
theorem runner_exit_code_contract (name p : String) (args : List String) :
    ((run_executable name (some p) args SpawnOutcome.fileNotFound).exitCode = 127)
  ∧ ((run_executable name (some p) args SpawnOutcome.permissionDenied).exitCode = 126)
  ∧ (∀ m, (run_executable name (some p) args (SpawnOutcome.subprocessError m)).exitCode = 1)
  ∧ (∀ m, (run_executable name (some p) args (SpawnOutcome.otherError m)).exitCode = 1)
  ∧ (∀ rc out err,
      (run_executable name (some p) args (SpawnOutcome.completed rc out err)).exitCode = rc) := by
  refine ⟨rfl, rfl, fun m => rfl, fun m => rfl, fun rc out err => ?_⟩
  cases h : name == ("ytprobe") <;> simp [run_executable, h]

/-- Claim C3: in relay-transform mode the Runner captures the child's
stdout and stderr, rebrands both (every case-insensitive `yt-dlp` becomes
`yt-dlx`), writes the transformed text to the parent's streams, and exits
with exactly the child's exit code, whatever that code is. -/
theorem ytprobe_relay_transform (p : String) (args : List String) (rc : Int) (out err : String) :
    run_executable ("ytprobe") (some p) args (SpawnOutcome.completed rc out err) =
      { exitCode := rc, spawnAttempted := true, command := some (p :: args),
        stdoutText := rebrand out, stderrText := rebrand err, report := none } := rfl

/-- Claim C9: the substitution matches the brand token case-insensitively
but always inserts the fixed lowercase replacement: any six-character
string whose characterwise lowercase form is `yt-dlp` is rewritten to the
literal lowercase `yt-dlx`. -/
theorem rebrand_lowercase_replacement (c0 c1 c2 c3 c4 c5 : Char)
    (h : [c0.toLower, c1.toLower, c2.toLower, c3.toLower, c4.toLower, c5.toLower] = brandPat) :
    rebrand (String.mk [c0, c1, c2, c3, c4, c5]) = ("yt-dlx") := by
  simp [brandPat] at h
  obtain ⟨h0, h1, h2, h3, h4, h5⟩ := h
  simp [rebrand, substBrand, ciMatches, brandPat, brandRepl, h0, h1, h2, h3, h4, h5]

/-- Witness for C9 at the mixed-case occurrence `Yt-DlP`. -/
theorem rebrand_lowercase_replacement_witness :
    ([Char.toLower ('Y'), Char.toLower ('t'), Char.toLower ('-'), Char.toLower ('D'),
      Char.toLower ('l'), Char.toLower ('P')] = brandPat)
  ∧ rebrand (String.mk ['Y', 't', '-', 'D', 'l', 'P']) = ("yt-dlx") :=
  ⟨by decide, rebrand_lowercase_replacement ('Y') ('t') ('-') ('D') ('l') ('P') (by decide)⟩

/-- Claim C6: the Locator returns either a path that exists or the Absent
marker `none`; not-found is signalled by the marker, never by an error
(the embedding is a total function into `Option`). -/
theorem locator_sound (env : Env) (rel p : String)
    (h : find_bundled_file env rel = some p) : pathExists env p = true := by
  simp only [find_bundled_file] at h
  split at h
  all_goals split at h
  all_goals try split at h
  all_goals first
    | exact existingOrNone_sound env _ p h
    | simp at h

/-- Witness for C6: the Tor data directory resolved in `envTor` exists. -/
theorem locator_sound_witness :
    pathExists envTor ("B/context/linux/TorBrowser/data") = true :=
  locator_sound envTor ("context/linux/TorBrowser/data")
    ("B/context/linux/TorBrowser/data") (by decide)

/-- Claim C2: when the Tor executable and data directory resolve, the
child argument vector is `--DataDirectory <data_dir>`, then `--config-file
<data_dir>/torrc` exactly when that torrc exists, then the forwarded user
arguments verbatim and last; the spawn still proceeds either way (torrc
absence is non-fatal). -/
theorem tor_argument_vector (env : Env) (torArgs : List String) (tp dd : String)
    (spawn : SpawnOutcome) (h1 : tor_path env = some tp) (h2 : tor_data_dir env = some dd) :
    ((main env { tor := some torArgs, ytprobe := none } spawn).command =
      some (tp :: ([("--DataDirectory"), dd]
        ++ (if pathExists env (joinP env dd ("torrc")) then
              [("--config-file"), joinP env dd ("torrc")]
            else [])
        ++ torArgs)))
  ∧ ((main env { tor := some torArgs, ytprobe := none } spawn).spawnAttempted = true) := by
  cases spawn <;>
    cases hc : pathExists env (joinP env dd ("torrc")) <;>
      simp [main, h1, h2, run_executable, hc, tor_not_ytprobe]

/-- Witness for C2 in `envTor`, where no torrc is present. -/
theorem tor_argument_vector_witness :
    ((main envTor { tor := some [("-v")], ytprobe := none }
        (SpawnOutcome.completed 0 "" "")).command =
      some (("B/context/linux/TorBrowser/tor/tor") ::
        ([("--DataDirectory"), ("B/context/linux/TorBrowser/data")]
          ++ (if pathExists envTor (joinP envTor ("B/context/linux/TorBrowser/data") ("torrc")) then
                [("--config-file"), joinP envTor ("B/context/linux/TorBrowser/data") ("torrc")]
              else [])
          ++ [("-v")])))
  ∧ ((main envTor { tor := some [("-v")], ytprobe := none }
        (SpawnOutcome.completed 0 "" "")).spawnAttempted = true) :=
  tor_argument_vector envTor [("-v")] ("B/context/linux/TorBrowser/tor/tor")
    ("B/context/linux/TorBrowser/data") (SpawnOutcome.completed 0 "" "") (by decide) (by decide)

/-- Counterexample for C4 as stated: on a Windows run whose bundle lacks
the torrc, the report's `bundled_torrc_win` entry is JSON `null`, not the
literal marker `"Not found in bundle"` and not `"N/A on this platform"`,
so a missing entry can be represented other than by the two markers. -/
theorem report_null_counterexample :
    ((main envWinEmpty { tor := none, ytprobe := none } SpawnOutcome.fileNotFound).report =
      some (statusReport envWinEmpty))
  ∧ ((statusReport envWinEmpty).tor_executable = JsonVal.jstr ("Not found in bundle"))
  ∧ ((statusReport envWinEmpty).bundled_torrc_win = JsonVal.jnull)
  ∧ (JsonVal.jnull ≠ JsonVal.jstr ("Not found in bundle"))
  ∧ (JsonVal.jnull ≠ JsonVal.jstr ("N/A on this platform")) := by decide

/-- Claim C4 as amended: the report covers all six entries; the Tor
executable, Tor data directory and probe entries read `"Not found in
bundle"` when missing, the torrc entry for the non-current platform reads
`"N/A on this platform"`, but the torrc entry for the current platform is
JSON `null` when the file is missing; the interpreter entry is
`sys.executable`. -/
theorem report_markers (env : Env) (spawn : SpawnOutcome) :
    ((main env { tor := none, ytprobe := none } spawn).report = some (statusReport env))
  ∧ (tor_path env = none →
      (statusReport env).tor_executable = JsonVal.jstr ("Not found in bundle"))
  ∧ (tor_data_dir env = none →
      (statusReport env).tor_data_directory = JsonVal.jstr ("Not found in bundle"))
  ∧ (ytprobe_path env = none →
      (statusReport env).ytprobe = JsonVal.jstr ("Not found in bundle"))
  ∧ (env.isWin32 = false →
      (statusReport env).bundled_torrc_win = JsonVal.jstr ("N/A on this platform"))
  ∧ (env.isWin32 = true →
      (statusReport env).bundled_torrc_linux = JsonVal.jstr ("N/A on this platform"))
  ∧ (env.isWin32 = true →
      find_bundled_file env ("context/windows/TorBrowser/data/torrc") = none →
      (statusReport env).bundled_torrc_win = JsonVal.jnull)
  ∧ (env.isWin32 = false →
      find_bundled_file env ("context/linux/TorBrowser/data/torrc") = none →
      (statusReport env).bundled_torrc_linux = JsonVal.jnull)
  ∧ ((statusReport env).running_python_executable = JsonVal.jstr env.pyExecutable) := by
  refine ⟨by simp [main], fun h => ?_, fun h => ?_, fun h => ?_, fun h => ?_, fun h => ?_,
    fun h hf => ?_, fun h hf => ?_, by simp [statusReport]⟩ <;>
    simp [statusReport, pathOrMarker, optPathJson, h]
  · rw [hf]
  · rw [hf]

/-- Witness for C4 as amended, on the empty Windows and Linux bundles. -/
theorem report_markers_witness :
    ((statusReport envWinEmpty).tor_executable = JsonVal.jstr ("Not found in bundle"))
  ∧ ((statusReport envWinEmpty).bundled_torrc_win = JsonVal.jnull)
  ∧ ((statusReport envEmptyLinux).bundled_torrc_win = JsonVal.jstr ("N/A on this platform")) :=
  ⟨(report_markers envWinEmpty SpawnOutcome.fileNotFound).2.1 (by decide),
    (report_markers envWinEmpty SpawnOutcome.fileNotFound).2.2.2.2.2.2.1 (by decide) (by decide),
    (report_markers envEmptyLinux SpawnOutcome.fileNotFound).2.2.2.2.1 (by decide)⟩

/-- Counterexample for C5 as stated: in `envDevCwd` the requested file
exists under the current working directory but the Locator still answers
`none` — the unbundled lookup does not consult the working directory (it
consults the script directory). -/
theorem locator_cwd_counterexample :
    (find_bundled_file envDevCwd ("data/x") = none)
  ∧ (locate_spec_cwd envDevCwd ("data/x") = some ("W/data/x"))
  ∧ (find_bundled_file envDevCwd ("data/x") ≠ locate_spec_cwd envDevCwd ("data/x")) := by
  decide

/-- Claim C5 as amended: when running unbundled, the Locator first checks
the relative path against the script's own directory, and only if that
candidate is absent retries against the directory three levels above the
script directory; if that also does not exist it returns `none`. -/
theorem unbundled_lookup_order (env : Env) (rel : String) (h : env.frozen = false) :
    find_bundled_file env rel =
      (if pathExists env (joinP env env.scriptDir (toHostSep env rel)) then
        some (joinP env env.scriptDir (toHostSep env rel))
      else if pathExists env (joinP env (joinP env (joinP env (joinP env env.scriptDir (".."))
          ("..")) ("..")) (toHostSep env rel)) then
        some (joinP env (joinP env (joinP env (joinP env env.scriptDir ("..")) ("..")) (".."))
          (toHostSep env rel))
      else none) := by
  cases hp : pathExists env (joinP env env.scriptDir (toHostSep env rel))
  · cases ha : pathExists env (joinP env (joinP env (joinP env (joinP env env.scriptDir (".."))
        ("..")) ("..")) (toHostSep env rel)) <;>
      simp [find_bundled_file, existingOrNone, h, hp, ha]
  · simp [find_bundled_file, existingOrNone, h, hp]

/-- Witness for C5 as amended, in the development environment `envDevCwd`. -/
theorem unbundled_lookup_order_witness :
    find_bundled_file envDevCwd ("data/x") =
      (if pathExists envDevCwd (joinP envDevCwd envDevCwd.scriptDir (toHostSep envDevCwd ("data/x"))) then
        some (joinP envDevCwd envDevCwd.scriptDir (toHostSep envDevCwd ("data/x")))
      else if pathExists envDevCwd (joinP envDevCwd (joinP envDevCwd (joinP envDevCwd
          (joinP envDevCwd envDevCwd.scriptDir ("..")) ("..")) ("..")) (toHostSep envDevCwd ("data/x"))) then
        some (joinP envDevCwd (joinP envDevCwd (joinP envDevCwd (joinP envDevCwd
          envDevCwd.scriptDir ("..")) ("..")) ("..")) (toHostSep envDevCwd ("data/x")))
      else none) :=
  unbundled_lookup_order envDevCwd ("data/x") rfl

/-- Claim C7: a `--tor` run whose Tor executable or data directory is
absent exits 1 with a descriptive message and never reaches the spawn,
and a `--ytprobe` run with an absent probe path likewise exits 1 naming
the missing executable before any spawn attempt. -/
theorem fail_fast_missing_resources (env : Env) (torArgs probeArgs : List String)
    (spawn : SpawnOutcome) :
    (tor_path env = none →
      main env { tor := some torArgs, ytprobe := none } spawn =
        { exitCode := 1, spawnAttempted := false, command := none, stdoutText := "",
          stderrText := ("Error: Bundled Tor executable not found in expected location."),
          report := none })
  ∧ (∀ tp, tor_path env = some tp → tor_data_dir env = none →
      main env { tor := some torArgs, ytprobe := none } spawn =
        { exitCode := 1, spawnAttempted := false, command := none, stdoutText := "",
          stderrText := ("Error: Bundled Tor Data directory not found in expected location."),
          report := none })
  ∧ (ytprobe_path env = none →
      main env { tor := none, ytprobe := some probeArgs } spawn =
        { exitCode := 1, spawnAttempted := false, command := none, stdoutText := "",
          stderrText := ("Error: ytprobe not found in bundle."),
          report := none }) := by
  refine ⟨fun h => by simp [main, h], fun tp h1 h2 => by simp [main, h1, h2],
    fun h => by simp [main, h, run_executable]⟩

/-- Witness for C7 on bundles missing the Tor executable, the Tor data
directory, and the probe executable respectively. -/
theorem fail_fast_missing_resources_witness :
    (main envEmptyLinux { tor := some [], ytprobe := none } SpawnOutcome.fileNotFound =
      { exitCode := 1, spawnAttempted := false, command := none, stdoutText := "",
        stderrText := ("Error: Bundled Tor executable not found in expected location."),
        report := none })
  ∧ (main envTorOnly { tor := some [], ytprobe := none } SpawnOutcome.fileNotFound =
      { exitCode := 1, spawnAttempted := false, command := none, stdoutText := "",
        stderrText := ("Error: Bundled Tor Data directory not found in expected location."),
        report := none })
  ∧ (main envEmptyLinux { tor := none, ytprobe := some [] } SpawnOutcome.fileNotFound =
      { exitCode := 1, spawnAttempted := false, command := none, stdoutText := "",
        stderrText := ("Error: ytprobe not found in bundle."),
        report := none }) :=
  ⟨(fail_fast_missing_resources envEmptyLinux [] [] SpawnOutcome.fileNotFound).1 (by decide),
    (fail_fast_missing_resources envTorOnly [] [] SpawnOutcome.fileNotFound).2.1
      ("B/context/linux/TorBrowser/tor/tor") (by decide) (by decide),
    (fail_fast_missing_resources envEmptyLinux [] [] SpawnOutcome.fileNotFound).2.2 (by decide)⟩

/-- Claim C8: when the embedded interpreter and the Dispatcher entry
script are both present, the Launch Shim spawns the interpreter on the
script with argv forwarded unchanged and exits with exactly the child's
exit code, and every spawn-time fault maps to exit code 1 — never 127 or
126. -/
theorem shim_exit_propagation (env : Env) (argv : List String) (vp : String)
    (h1 : find_venv_python env = some vp)
    (h2 : pathExists env (app_script_path env) = true) :
    (∀ rc out err, shimMain env argv (SpawnOutcome.completed rc out err) =
      { exitCode := rc, spawnAttempted := true,
        command := some (vp :: app_script_path env :: argv),
        stdoutText := out, stderrText := err, report := none })
  ∧ ((shimMain env argv SpawnOutcome.fileNotFound).exitCode = 1)
  ∧ ((shimMain env argv SpawnOutcome.permissionDenied).exitCode = 1)
  ∧ (∀ m, (shimMain env argv (SpawnOutcome.subprocessError m)).exitCode = 1)
  ∧ (∀ m, (shimMain env argv (SpawnOutcome.otherError m)).exitCode = 1) := by
  refine ⟨fun rc out err => ?_, ?_, ?_, fun m => ?_, fun m => ?_⟩ <;>
    simp [shimMain, h1, h2]

/-- Witness for C8 in the bundle `envShim`. -/
theorem shim_exit_propagation_witness :
    (shimMain envShim [("--x")] (SpawnOutcome.completed 0 "" "") =
      { exitCode := 0, spawnAttempted := true,
        command := some (("B/context/linux/venv/bin/python") ::
          app_script_path envShim :: [("--x")]),
        stdoutText := "", stderrText := "", report := none })
  ∧ ((shimMain envShim [("--x")] SpawnOutcome.fileNotFound).exitCode = 1) := by
  have h := shim_exit_propagation envShim [("--x")] ("B/context/linux/venv/bin/python")
    (by decide) (by decide)
  exact ⟨h.1 0 "" "", h.2.1⟩

/-- Claim C10: passing a flag with zero trailing arguments still selects
the corresponding child-launch flow with an empty forwarded list, while
omitting both flags produces the status report and spawns nothing: the
dispatch branches on flag presence, not on payload non-emptiness. -/
theorem flag_presence_dispatch (env : Env) (spawn : SpawnOutcome) :
    ((main env { tor := some [], ytprobe := none } spawn).report = none)
  ∧ ((main env { tor := none, ytprobe := some [] } spawn).report = none)
  ∧ ((main env { tor := none, ytprobe := none } spawn).report = some (statusReport env))
  ∧ ((main env { tor := none, ytprobe := none } spawn).spawnAttempted = false)
  ∧ (∀ pp, ytprobe_path env = some pp →
      (main env { tor := none, ytprobe := some [] } spawn).command = some [pp]) := by
  refine ⟨?_, ?_, by simp [main], by simp [main], fun pp hp => ?_⟩
  · cases h1 : tor_path env
    · simp [main, h1]
    · cases h2 : tor_data_dir env
      · simp [main, h1, h2]
      · cases spawn <;> simp [main, h1, h2, run_executable, tor_not_ytprobe]
  · cases hp : ytprobe_path env
    · simp [main, hp, run_executable]
    · cases spawn <;> simp [main, hp, run_executable]
  · cases spawn <;> simp [main, hp, run_executable]

/-- Witness for C10 in `envProbe`, where the probe executable resolves. -/
theorem flag_presence_dispatch_witness :
    ((main envProbe { tor := none, ytprobe := some [] }
        (SpawnOutcome.completed 0 "" "")).command = some [("B/context/linux/ytprobe.bin")])
  ∧ ((main envProbe { tor := none, ytprobe := none }
        (SpawnOutcome.completed 0 "" "")).report = some (statusReport envProbe)) := by
  have h := flag_presence_dispatch envProbe (SpawnOutcome.completed 0 "" "")
  exact ⟨h.2.2.2.2 ("B/context/linux/ytprobe.bin") (by decide), h.2.2.1⟩

end YtDlx
